import Mathlib

/-!
Verification development for the scripted-exchange engine of
`unit/test-avdtp.c` (BlueZ AVDTP conformance test harness).

The embedding translates the harness's data model and handlers:

* `TestPdu`, `mkPduList`, `pduAt` — `struct test_pdu`, the `define_test`
  macro (which appends two zero-initialized sentinel entries), and array
  indexing into `context->pdu_list`.
* `Context` — the mutable fields of `struct context` relevant to the
  scripted exchange: the script cursor `pdu_offset`, the script itself,
  the number of pending `g_idle_add(send_pdu, ...)` sources, whether the
  io watch installed by `create_context` is still registered, and whether
  `g_main_loop_quit` has been requested via `context_quit`.
* `send_pdu`, `context_process`, `context_quit`, `test_handler` — direct
  translations of the corresponding C functions.  `test_handler` takes the
  event condition and the outcome of the single `read(fd, buf, 512)` call
  (`none` models a failed read, `some pkt` models a delivered packet of
  which at most 512 bytes land in `buf`).  A `g_assert` failure aborts the
  test process; it is modelled by the `HandlerResult.aborted` outcome,
  which is terminal: no further event can be dispatched after it.
* `Step` / `Trace` — the single-threaded GLib main-loop dispatch: a send
  runs only when an idle source is pending, a read or terminal condition
  is delivered only while the io watch is registered, and the inbound
  bytes are chosen adversarially (the session engine under test is an
  external collaborator).  Only non-aborting dispatches are steps, since a
  `g_assert` failure terminates the process.
* `sep_getcap_ind`, `sep_setconf_cfm`, `sep_open_cfm`, `discover_cb` —
  the callback contracts, with the external session-engine results
  (operation return codes, remote-endpoint lookup, `open(2)` result)
  passed in as parameters.
-/

/-- One scripted PDU entry, `struct test_pdu`: a validity flag and the
wire bytes (`data`/`size` collapse to a byte list; `size` is its length). -/
structure TestPdu where
  valid : Bool
  data : List Nat
  deriving DecidableEq, Repr

/-- `pdu->size` of an entry is the length of its byte payload. -/
def TestPdu.size (p : TestPdu) : Nat := p.data.length

/-- The zero-initialized sentinel entry `{ }`: `valid = false`, no bytes. -/
def sentinelPdu : TestPdu := { valid := false, data := [] }

/-- The script array built by `define_test`: the supplied entries followed
by the two zero-initialized sentinel terminators `{ }, { }`. -/
def mkPduList (entries : List TestPdu) : List TestPdu :=
  entries ++ [sentinelPdu, sentinelPdu]

/-- Indexing `context->pdu_list[i]`.  Out-of-range reads (which the C
harness never performs on the scripts it builds) yield the sentinel. -/
def pduAt (l : List TestPdu) (i : Nat) : TestPdu := l.getD i sentinelPdu

/-- The harness-visible mutable state of `struct context`. -/
structure Context where
  pdu_offset : Nat
  pdu_list : List TestPdu
  pending_sends : Nat
  watch_active : Bool
  quit_requested : Bool
  deriving DecidableEq, Repr

/-- The `GIOCondition` bits `test_handler` inspects. -/
structure GioCond where
  hasIn : Bool
  hasHup : Bool
  hasErr : Bool
  hasNval : Bool
  deriving DecidableEq, Repr

/-- The check `cond & (G_IO_NVAL | G_IO_ERR | G_IO_HUP)` at the top of
`test_handler`: true when any terminal condition bit is set. -/
def GioCond.terminal (x : GioCond) : Bool := x.hasNval || x.hasErr || x.hasHup

/-- A pure `G_IO_IN` readiness event. -/
def dataCond : GioCond := { hasIn := true, hasHup := false, hasErr := false, hasNval := false }

/-- A pure `G_IO_HUP` event. -/
def hupCond : GioCond := { hasIn := false, hasHup := true, hasErr := false, hasNval := false }

/-- A pure `G_IO_ERR` event. -/
def errCond : GioCond := { hasIn := false, hasHup := false, hasErr := true, hasNval := false }

/-- A pure `G_IO_NVAL` event. -/
def nvalCond : GioCond := { hasIn := false, hasHup := false, hasErr := false, hasNval := true }

/-- The 512-byte stack buffer `unsigned char buf[512]` in `test_handler`. -/
def bufSize : Nat := 512

/-- `context_quit`: request main-loop termination (`g_main_loop_quit`). -/
def context_quit (c : Context) : Context := { c with quit_requested := true }

/-- `context_process`: if the entry at the cursor is not valid (the
terminal sentinel was reached) request loop termination, otherwise
schedule the next scripted send with `g_idle_add(send_pdu, context)`. -/
def context_process (c : Context) : Context :=
  if (pduAt c.pdu_list c.pdu_offset).valid = false then context_quit c
  else { c with pending_sends := c.pending_sends + 1 }

/-- Result of one `send_pdu` invocation: the updated context, the bytes
handed to the single `write` call, whether `g_assert(len == pdu->size)`
holds for the observed write return `wlen`, and the `gboolean` return
value (always `FALSE`: the idle source does not re-run). -/
structure SendResult where
  ctx : Context
  written : List Nat
  assertOk : Bool
  rerun : Bool
  deriving DecidableEq, Repr

/-- `send_pdu`: take the entry at the cursor (post-incrementing the
cursor), write its full byte payload to the peer endpoint in one `write`
call, and assert that the write consumed exactly `pdu->size` bytes.
`wlen` is the value returned by `write`. -/
def send_pdu (c : Context) (wlen : Int) : SendResult :=
  let pdu := pduAt c.pdu_list c.pdu_offset
  { ctx := { c with pdu_offset := c.pdu_offset + 1 },
    written := pdu.data,
    assertOk := wlen == Int.ofNat pdu.size,
    rerun := false }

/-- Which `g_assert` in `test_handler` fired. -/
inductive AbortReason where
  /-- `g_assert(len > 0)` failed: `read` returned an error or zero bytes. -/
  | readFailed
  /-- `g_assert((size_t) len == pdu->size)` failed. -/
  | lenMismatch
  /-- `g_assert(memcmp(buf, pdu->data, pdu->size) == 0)` failed. -/
  | contentMismatch
  deriving DecidableEq, Repr

/-- Outcome of one `test_handler` invocation. -/
inductive HandlerResult where
  /-- Returned `FALSE` (terminal condition): the io watch is removed. -/
  | stopWatch (c : Context)
  /-- A `g_assert` fired, aborting the test process. -/
  | aborted (c : Context) (r : AbortReason)
  /-- Returned `TRUE` after verification and `context_process`. -/
  | keep (c : Context)
  deriving DecidableEq, Repr

/-- The context recorded in a handler outcome. -/
def HandlerResult.ctx : HandlerResult → Context
  | HandlerResult.stopWatch c => c
  | HandlerResult.aborted c _ => c
  | HandlerResult.keep c => c

/-- Whether the outcome is an abort (a fatal `g_assert` failure). -/
def HandlerResult.isAborted : HandlerResult → Bool
  | HandlerResult.aborted _ _ => true
  | _ => false

/-- `test_handler`: the io-watch callback.  It first takes the entry at
the cursor, post-incrementing the cursor; on a terminal condition it
returns `FALSE` (stop watching); otherwise it reads into the 512-byte
buffer in a single `read` call (`readRes = none` models a read error,
`some pkt` a delivered packet truncated to 512 bytes), asserts the read
returned a strictly positive count, asserts the observed length equals
the expected entry's size, asserts the bytes match, and finally runs
`context_process` and returns `TRUE`. -/
def test_handler (c : Context) (cond : GioCond) (readRes : Option (List Nat)) :
    HandlerResult :=
  let pdu := pduAt c.pdu_list c.pdu_offset
  let c1 : Context := { c with pdu_offset := c.pdu_offset + 1 }
  if GioCond.terminal cond then HandlerResult.stopWatch c1
  else
    match readRes with
    | none => HandlerResult.aborted c1 AbortReason.readFailed
    | some pkt =>
      let buf := pkt.take bufSize
      if buf.length = 0 then HandlerResult.aborted c1 AbortReason.readFailed
      else if buf.length ≠ pdu.size then HandlerResult.aborted c1 AbortReason.lenMismatch
      else if buf ≠ pdu.data then HandlerResult.aborted c1 AbortReason.contentMismatch
      else HandlerResult.keep (context_process c1)

/-- The context produced by `create_context` once a test has installed its
script: cursor at zero, io watch registered, no pending idle source, no
quit requested. -/
def create_context (entries : List TestPdu) : Context :=
  { pdu_offset := 0, pdu_list := mkPduList entries, pending_sends := 0,
    watch_active := true, quit_requested := false }

/-- The state at the start of a server-role scenario (`test_server`):
`g_idle_add(send_pdu, context)` has queued exactly one initial send. -/
def test_server_start (entries : List TestPdu) : Context :=
  { create_context entries with pending_sends := 1 }

/-- An observable dispatch of the main loop. -/
inductive Event where
  /-- `send_pdu` ran for script index `idx`, writing `bytes`. -/
  | send (idx : Nat) (bytes : List Nat)
  /-- `test_handler` ran on inbound data for script index `idx`, read
  `bytes`, and verification succeeded. -/
  | recv (idx : Nat) (bytes : List Nat)
  /-- `test_handler` ran on a terminal condition, consuming index `idx`
  and deregistering the watch. -/
  | stop (idx : Nat)
  deriving DecidableEq, Repr

/-- The script index an event consumed. -/
def Event.idx : Event → Nat
  | Event.send i _ => i
  | Event.recv i _ => i
  | Event.stop i => i

/-- Whether an event is a scripted send. -/
def isSend : Event → Bool
  | Event.send _ _ => true
  | _ => false

/-- Whether an event is a verified inbound read. -/
def isRecv : Event → Bool
  | Event.recv _ _ => true
  | _ => false

/-- Number of scripted sends in a dispatch trace. -/
def countSends (tr : List Event) : Nat := tr.countP isSend

/-- Number of verified inbound reads in a dispatch trace. -/
def countRecvs (tr : List Event) : Nat := tr.countP isRecv

/-- Dispatching a pending `send_pdu` idle source: the write of a full
entry to the connected socketpair endpoint consumes exactly the entry's
size, the idle source is consumed, and `send_pdu` returns `FALSE` so it
is not re-queued. -/
def dispatch_send (c : Context) : Context :=
  { (send_pdu c (Int.ofNat (pduAt c.pdu_list c.pdu_offset).size)).ctx with
      pending_sends := c.pending_sends - 1 }

/-- One main-loop dispatch.  The session engine under test is external, so
the bytes it emits (and any terminal transport condition) are chosen
adversarially.  An aborting dispatch (`g_assert` failure) terminates the
process and therefore yields no step. -/
inductive Step : Context → Event → Context → Prop where
  /-- Run a pending `send_pdu` idle source. -/
  | dispatchSend (c : Context) (h : 0 < c.pending_sends) :
      Step c (Event.send c.pdu_offset (pduAt c.pdu_list c.pdu_offset).data)
        (dispatch_send c)
  /-- Deliver inbound bytes to the registered io watch; the handler
  verified them successfully and returned `TRUE`. -/
  | dispatchRecv (c c₂ : Context) (pkt : List Nat)
      (hw : c.watch_active = true)
      (hk : test_handler c dataCond (some pkt) = HandlerResult.keep c₂) :
      Step c (Event.recv c.pdu_offset (pkt.take bufSize)) c₂
  /-- Deliver a terminal condition to the registered io watch; the handler
  returned `FALSE` and the loop removed the watch. -/
  | dispatchTerm (c c₂ : Context) (cond : GioCond)
      (hw : c.watch_active = true) (ht : GioCond.terminal cond = true)
      (hs : test_handler c cond none = HandlerResult.stopWatch c₂) :
      Step c (Event.stop c.pdu_offset) { c₂ with watch_active := false }

/-- A finite dispatch trace of the main loop. -/
inductive Trace : Context → List Event → Context → Prop where
  | nil (c : Context) : Trace c [] c
  | cons (c c₂ c₃ : Context) (e : Event) (es : List Event)
      (hstep : Step c e c₂) (htr : Trace c₂ es c₃) : Trace c (e :: es) c₃

/-- `AVDTP_MEDIA_TRANSPORT` service category. -/
def AVDTP_MEDIA_TRANSPORT : Nat := 0x01

/-- `AVDTP_MEDIA_CODEC` service category. -/
def AVDTP_MEDIA_CODEC : Nat := 0x07

/-- `AVDTP_MEDIA_TYPE_AUDIO`. -/
def AVDTP_MEDIA_TYPE_AUDIO : Nat := 0x00

/-- `struct avdtp_media_codec_capability`: media type, codec type and the
trailing codec-specific bytes. -/
structure MediaCodecCapability where
  media_type : Nat
  media_codec_type : Nat
  data : List Nat
  deriving DecidableEq, Repr

/-- Payload of a service-capability record: either empty (as for the
media-transport category) or a media-codec capability blob. -/
inductive CapData where
  | empty
  | codec (cap : MediaCodecCapability)
  deriving DecidableEq, Repr

/-- A service-capability record as handed to the session engine. -/
structure ServiceCapability where
  category : Nat
  payload : CapData
  deriving DecidableEq, Repr

/-- Modelled from the spec: `avdtp_service_cap_new` lives in the session
engine (`android/avdtp.c`, outside the excerpted sources); per the spec it
is an opaque constructor taking a category tag and a payload buffer with
its length, returning a record holding the category and a copy of the
payload. -/
def avdtp_service_cap_new (category : Nat) (payload : CapData) : ServiceCapability :=
  { category := category, payload := payload }

/-- `sep_getcap_ind`: the capability-indication contract.  Regardless of
the `get_all` flag it empties the output collection, appends a
media-transport record with no payload, then appends a media-codec record
for audio with codec type 0 and the fixed bytes `{0xff, 0xff, 2, 64}`,
and returns `TRUE`. -/
def sep_getcap_ind (get_all : Bool) : Bool × List ServiceCapability :=
  let media_transport := avdtp_service_cap_new AVDTP_MEDIA_TRANSPORT CapData.empty
  let caps1 : List ServiceCapability := [] ++ [media_transport]
  let codec_caps : MediaCodecCapability :=
    { media_type := AVDTP_MEDIA_TYPE_AUDIO, media_codec_type := 0x00,
      data := [0xff, 0xff, 2, 64] }
  let media_codec := avdtp_service_cap_new AVDTP_MEDIA_CODEC (CapData.codec codec_caps)
  (true, caps1 ++ [media_codec])

/-- Session-engine operations the callback contracts may invoke. -/
inductive SessionOp where
  | getConfiguration
  | openStream
  | startStream
  | setConfiguration
  deriving DecidableEq, Repr

/-- Observable outcome of a confirmation-contract invocation. -/
inductive CfmOutcome where
  /-- A `g_assert` (or `g_assert_not_reached`) fired. -/
  | assertFailed
  /-- The callback returned without invoking any engine operation. -/
  | returned
  /-- The callback invoked the given engine operation and the asserted
  return code was zero. -/
  | invoked (op : SessionOp)
  deriving DecidableEq, Repr

/-- `sep_setconf_cfm`: asserts `err == NULL` first; with no context it
returns; otherwise it inspects byte 1 of the script entry at the cursor
(returning if the entry is shorter than 2 bytes) and chains
`avdtp_get_configuration` (signal 0x04) or `avdtp_open` (signal 0x06),
asserting the engine returned 0; any other signal is
`g_assert_not_reached`.  `ret` is the external engine's return code. -/
def sep_setconf_cfm (err : Option Nat) (context : Option Context) (ret : Int) :
    CfmOutcome :=
  match err with
  | some _ => CfmOutcome.assertFailed
  | none =>
    match context with
    | none => CfmOutcome.returned
    | some c =>
      let pdu := pduAt c.pdu_list c.pdu_offset
      if pdu.size < 2 then CfmOutcome.returned
      else if pdu.data.getD 1 0 = 0x04 then
        (if ret = 0 then CfmOutcome.invoked SessionOp.getConfiguration
         else CfmOutcome.assertFailed)
      else if pdu.data.getD 1 0 = 0x06 then
        (if ret = 0 then CfmOutcome.invoked SessionOp.openStream
         else CfmOutcome.assertFailed)
      else CfmOutcome.assertFailed

/-- `sep_open_cfm`: asserts `err == NULL` first, opens a transport file
descriptor (`fd` is the external `open` result; a negative value is
`g_assert_not_reached`), hands it to the stream and chains `avdtp_start`,
asserting the engine returned 0. -/
def sep_open_cfm (err : Option Nat) (fd : Int) (ret : Int) : CfmOutcome :=
  match err with
  | some _ => CfmOutcome.assertFailed
  | none =>
    if fd < 0 then CfmOutcome.assertFailed
    else if ret = 0 then CfmOutcome.invoked SessionOp.startStream
    else CfmOutcome.assertFailed

/-- The capability list `discover_cb` builds for `avdtp_set_configuration`:
a media-transport record and an audio media-codec record with the fixed
bytes `{0x21, 0x02, 2, 32}`. -/
def discover_caps : List ServiceCapability :=
  [avdtp_service_cap_new AVDTP_MEDIA_TRANSPORT CapData.empty,
   avdtp_service_cap_new AVDTP_MEDIA_CODEC
     (CapData.codec { media_type := AVDTP_MEDIA_TYPE_AUDIO,
                      media_codec_type := 0x00, data := [0x21, 0x02, 2, 32] })]

/-- `discover_cb`: the discovery-completion callback.  It returns at once
when no scenario context was supplied (`user_data == NULL`); only then
does it assert `err == NULL`, assert the discovered endpoint list is
non-empty, look up the remote endpoint (`rsepFound` models the external
`avdtp_find_remote_sep` result, asserted non-null), build
`discover_caps` and chain `avdtp_set_configuration`, asserting the
engine returned 0 (`ret`). -/
def discover_cb (context : Option Context) (sepsLen : Nat) (err : Option Nat)
    (rsepFound : Bool) (ret : Int) : CfmOutcome :=
  match context with
  | none => CfmOutcome.returned
  | some _ =>
    match err with
    | some _ => CfmOutcome.assertFailed
    | none =>
      if sepsLen = 0 then CfmOutcome.assertFailed
      else if rsepFound = false then CfmOutcome.assertFailed
      else if ret = 0 then CfmOutcome.invoked SessionOp.setConfiguration
      else CfmOutcome.assertFailed

/-- Sample entry with bytes `{1, 2}`. -/
def exPdu12 : TestPdu := { valid := true, data := [1, 2] }

/-- Sample entry with bytes `{3}`. -/
def exPdu3 : TestPdu := { valid := true, data := [3] }

/-- Sample context over the script `[{1,2}, {3}]`. -/
def exCtx : Context := create_context [exPdu12, exPdu3]

/-- Sample context over the script `[{3}]`. -/
def exCtxB : Context := create_context [exPdu3]

/-- Sample server-role start state over the script `[{1,2}]`. -/
def exServer : Context := test_server_start [exPdu12]

/-- Sample context whose first expected entry is longer than the 512-byte
read buffer. -/
def exCtxBig : Context := create_context [{ valid := true, data := List.replicate 600 7 }]

/-! ## Helper lemmas shared across the claim theorems -/

theorem terminal_stopWatch (c : Context) (cond : GioCond) (r : Option (List Nat))
    (ht : GioCond.terminal cond = true) :
    test_handler c cond r = HandlerResult.stopWatch { c with pdu_offset := c.pdu_offset + 1 } := by
  simp [test_handler, ht]

theorem data_handler_cases (c : Context) (pkt : List Nat) :
    test_handler c dataCond (some pkt) =
      (if (pkt.take bufSize).length = 0 then
        HandlerResult.aborted { c with pdu_offset := c.pdu_offset + 1 } AbortReason.readFailed
      else if (pkt.take bufSize).length ≠ (pduAt c.pdu_list c.pdu_offset).size then
        HandlerResult.aborted { c with pdu_offset := c.pdu_offset + 1 } AbortReason.lenMismatch
      else if pkt.take bufSize ≠ (pduAt c.pdu_list c.pdu_offset).data then
        HandlerResult.aborted { c with pdu_offset := c.pdu_offset + 1 } AbortReason.contentMismatch
      else HandlerResult.keep (context_process { c with pdu_offset := c.pdu_offset + 1 })) := by
  simp only [test_handler, dataCond, GioCond.terminal, Bool.or_self, Bool.or_false,
    Bool.false_eq_true, if_false]

theorem context_process_fields (c : Context) :
    (context_process c).pdu_offset = c.pdu_offset
    ∧ (context_process c).pdu_list = c.pdu_list
    ∧ (context_process c).watch_active = c.watch_active
    ∧ (context_process c).pending_sends ≤ c.pending_sends + 1 := by
  unfold context_process context_quit
  split <;> simp [Nat.le_succ]

theorem dispatch_send_fields (c : Context) :
    (dispatch_send c).pdu_offset = c.pdu_offset + 1
    ∧ (dispatch_send c).pdu_list = c.pdu_list
    ∧ (dispatch_send c).watch_active = c.watch_active
    ∧ (dispatch_send c).quit_requested = c.quit_requested
    ∧ (dispatch_send c).pending_sends = c.pending_sends - 1 := by
  simp [dispatch_send, send_pdu]

theorem handler_keep_inv (c c₂ : Context) (pkt : List Nat)
    (hk : test_handler c dataCond (some pkt) = HandlerResult.keep c₂) :
    c₂ = context_process { c with pdu_offset := c.pdu_offset + 1 }
    ∧ (pkt.take bufSize).length ≠ 0
    ∧ pkt.take bufSize = (pduAt c.pdu_list c.pdu_offset).data := by
  rw [data_handler_cases] at hk
  split at hk
  · simp at hk
  · split at hk
    · simp at hk
    · split at hk
      · simp at hk
      · rename_i h0 hlen hdata
        simp only [HandlerResult.keep.injEq] at hk
        exact ⟨hk.symm, h0, not_not.mp hdata⟩

theorem handler_stop_inv (c c₂ : Context) (cond : GioCond) (r : Option (List Nat))
    (ht : GioCond.terminal cond = true)
    (hs : test_handler c cond r = HandlerResult.stopWatch c₂) :
    c₂ = { c with pdu_offset := c.pdu_offset + 1 } := by
  rw [terminal_stopWatch c cond r ht] at hs
  simp only [HandlerResult.stopWatch.injEq] at hs
  exact hs.symm

theorem step_idx_offset (c c₂ : Context) (e : Event) (h : Step c e c₂) :
    e.idx = c.pdu_offset ∧ c₂.pdu_offset = c.pdu_offset + 1 := by
  cases h with
  | dispatchSend h =>
    exact ⟨rfl, (dispatch_send_fields c).1⟩
  | dispatchRecv c₂ pkt hw hk =>
    refine ⟨rfl, ?_⟩
    rw [(handler_keep_inv c c₂ pkt hk).1]
    exact (context_process_fields _).1
  | dispatchTerm c₃ cond hw ht hs =>
    refine ⟨rfl, ?_⟩
    rw [handler_stop_inv c c₃ cond none ht hs]

theorem step_pdu_list (c c₂ : Context) (e : Event) (h : Step c e c₂) :
    c₂.pdu_list = c.pdu_list := by
  cases h with
  | dispatchSend h => exact (dispatch_send_fields c).2.1
  | dispatchRecv c₂ pkt hw hk =>
    rw [(handler_keep_inv c c₂ pkt hk).1]
    exact (context_process_fields _).2.1
  | dispatchTerm c₃ cond hw ht hs =>
    rw [handler_stop_inv c c₃ cond none ht hs]

theorem step_pending (c c₂ : Context) (e : Event) (h : Step c e c₂) :
    c₂.pending_sends + (if isSend e then 1 else 0) ≤
      c.pending_sends + (if isRecv e then 1 else 0) := by
  cases h with
  | dispatchSend h =>
    have hd := (dispatch_send_fields c).2.2.2.2
    norm_num [isSend, isRecv]
    omega
  | dispatchRecv c₂ pkt hw hk =>
    have h₂ := (handler_keep_inv c c₂ pkt hk).1
    have hcp := (context_process_fields { c with pdu_offset := c.pdu_offset + 1 }).2.2.2
    have hc1 : ({ c with pdu_offset := c.pdu_offset + 1 } : Context).pending_sends
        = c.pending_sends := rfl
    norm_num [isSend, isRecv]
    rw [h₂]
    omega
  | dispatchTerm c₃ cond hw ht hs =>
    have h₂ := handler_stop_inv c c₃ cond none ht hs
    rw [h₂]
    simp [isSend, isRecv]

theorem step_watch_off (c c₂ : Context) (e : Event) (h : Step c e c₂)
    (hw : c.watch_active = false) :
    c₂.watch_active = false ∧ c₂.quit_requested = c.quit_requested := by
  cases h with
  | dispatchSend h =>
    exact ⟨(dispatch_send_fields c).2.2.1.trans hw, (dispatch_send_fields c).2.2.2.1⟩
  | dispatchRecv c₂ pkt hw2 hk => rw [hw] at hw2; exact absurd hw2 (by simp)
  | dispatchTerm c₃ cond hw2 ht hs => rw [hw] at hw2; exact absurd hw2 (by simp)

theorem trace_get_idx (c c₂ : Context) (tr : List Event) (h : Trace c tr c₂) :
    ∀ k (hk : k < tr.length), (tr.get ⟨k, hk⟩).idx = c.pdu_offset + k := by
  induction h with
  | nil c => intro k hk; exact absurd hk (by simp)
  | cons c c₂ c₃ e es hstep htr ih =>
    intro k hk
    match k with
    | 0 => simpa using (step_idx_offset c c₂ e hstep).1
    | Nat.succ n =>
      have hn : n < es.length := by simpa using hk
      have := ih n hn
      have hoff := (step_idx_offset c c₂ e hstep).2
      simp only [List.get_cons_succ]
      rw [this, hoff]
      omega

theorem trace_pending (c c₂ : Context) (tr : List Event) (h : Trace c tr c₂) :
    c₂.pending_sends + countSends tr ≤ c.pending_sends + countRecvs tr := by
  induction h with
  | nil c => simp [countSends, countRecvs]
  | cons c c₂ c₃ e es hstep htr ih =>
    have hstep₂ := step_pending c c₂ e hstep
    simp only [countSends, countRecvs, List.countP_cons] at ih ⊢
    by_cases hs : isSend e = true <;> by_cases hr : isRecv e = true <;>
      simp only [hs, hr, if_pos, if_neg, Bool.false_eq_true, if_false] at hstep₂ ⊢ <;> omega

theorem trace_watch_off (c c₂ : Context) (tr : List Event) (h : Trace c tr c₂)
    (hw : c.watch_active = false) :
    c₂.watch_active = false ∧ c₂.quit_requested = c.quit_requested := by
  induction h with
  | nil c => exact ⟨hw, rfl⟩
  | cons c c₂ c₃ e es hstep htr ih =>
    have h₂ := step_watch_off c c₂ e hstep hw
    have h₃ := ih h₂.1
    exact ⟨h₃.1, h₃.2.trans h₂.2⟩

theorem pduAt_mkPduList_nil (i : Nat) : pduAt (mkPduList []) i = sentinelPdu := by
  match i with
  | 0 => rfl
  | 1 => rfl
  | n + 2 => rfl

theorem context_process_offset (c : Context) :
    (context_process c).pdu_offset = c.pdu_offset := (context_process_fields c).1

theorem handler_ctx_offset (c : Context) (cond : GioCond) (r : Option (List Nat)) :
    (test_handler c cond r).ctx.pdu_offset = c.pdu_offset + 1 := by
  by_cases ht : GioCond.terminal cond = true
  · rw [terminal_stopWatch c cond r ht]; rfl
  · have hf : GioCond.terminal cond = false := by simpa using ht
    cases r with
    | none => simp [test_handler, hf, HandlerResult.ctx]
    | some pkt =>
      simp only [test_handler, hf, Bool.false_eq_true, if_false]
      split
      · simp [HandlerResult.ctx]
      · split
        · simp [HandlerResult.ctx]
        · split
          · simp [HandlerResult.ctx]
          · simp [HandlerResult.ctx, context_process_offset]

theorem trace_empty_quit (c c₂ : Context) (tr : List Event) (h : Trace c tr c₂) :
    c.pdu_list = mkPduList [] → c.quit_requested = false →
    c₂.quit_requested = false ∧ countRecvs tr = 0 := by
  induction h with
  | nil c => intro _ hq; exact ⟨hq, rfl⟩
  | cons c c₂ c₃ e es hstep htr ih =>
    intro hl hq
    have hlist : c₂.pdu_list = mkPduList [] := (step_pdu_list c c₂ e hstep).trans hl
    cases hstep with
    | dispatchSend hp =>
      have hq₂ : (dispatch_send c).quit_requested = false :=
        ((dispatch_send_fields c).2.2.2.1).trans hq
      have hres := ih hlist hq₂
      refine ⟨hres.1, ?_⟩
      simp [countRecvs, List.countP_cons, isRecv] at hres ⊢
      exact hres.2
    | dispatchRecv c₄ pkt hw hk =>
      exfalso
      have hinv := handler_keep_inv c c₂ pkt hk
      have hdat : (pduAt c.pdu_list c.pdu_offset).data = [] := by
        rw [hl, pduAt_mkPduList_nil]; rfl
      rw [hdat] at hinv
      exact hinv.2.1 (by rw [hinv.2.2]; rfl)
    | dispatchTerm c₄ cond hw ht hs =>
      have h₄ := handler_stop_inv c c₄ cond none ht hs
      have hq₂ : ({ c₄ with watch_active := false } : Context).quit_requested = false := by
        rw [h₄]; exact hq
      have hres := ih hlist hq₂
      refine ⟨hres.1, ?_⟩
      simp [countRecvs, List.countP_cons, isRecv] at hres ⊢
      exact hres.2

/-! ## Claim theorems -/

/-- Claim C1: on an inbound data event the read handler reads the observed
bytes, verifies them against the next expected script entry by comparing
length and byte-for-byte content (a mismatch of either is a fatal abort),
and then either requests event-loop termination when the next entry is
the terminal sentinel, or schedules the next scripted send as a deferred
idle task otherwise. -/
theorem c1_read_verify_then_next_step (c : Context) (pkt : List Nat)
    (hne : (pkt.take bufSize).length ≠ 0) :
    (pkt.take bufSize = (pduAt c.pdu_list c.pdu_offset).data →
       test_handler c dataCond (some pkt) =
         HandlerResult.keep (context_process { c with pdu_offset := c.pdu_offset + 1 }))
    ∧ ((pkt.take bufSize).length ≠ (pduAt c.pdu_list c.pdu_offset).size →
       test_handler c dataCond (some pkt) =
         HandlerResult.aborted { c with pdu_offset := c.pdu_offset + 1 } AbortReason.lenMismatch)
    ∧ ((pkt.take bufSize).length = (pduAt c.pdu_list c.pdu_offset).size →
       pkt.take bufSize ≠ (pduAt c.pdu_list c.pdu_offset).data →
       test_handler c dataCond (some pkt) =
         HandlerResult.aborted { c with pdu_offset := c.pdu_offset + 1 } AbortReason.contentMismatch)
    ∧ ((pduAt c.pdu_list (c.pdu_offset + 1)).valid = false →
       (context_process { c with pdu_offset := c.pdu_offset + 1 }).quit_requested = true
       ∧ (context_process { c with pdu_offset := c.pdu_offset + 1 }).pending_sends
           = c.pending_sends)
    ∧ ((pduAt c.pdu_list (c.pdu_offset + 1)).valid = true →
       (context_process { c with pdu_offset := c.pdu_offset + 1 }).pending_sends
         = c.pending_sends + 1
       ∧ (context_process { c with pdu_offset := c.pdu_offset + 1 }).quit_requested
         = c.quit_requested) := by
  refine ⟨?_, ?_, ?_, ?_, ?_⟩
  · intro hdata
    have hlen : (pkt.take bufSize).length = (pduAt c.pdu_list c.pdu_offset).size := by
      rw [hdata]; rfl
    rw [data_handler_cases, if_neg hne, if_neg (not_not_intro hlen),
      if_neg (not_not_intro hdata)]
  · intro hlen
    rw [data_handler_cases, if_neg hne, if_pos hlen]
  · intro hlen hdata
    rw [data_handler_cases, if_neg hne, if_neg (not_not_intro hlen), if_pos hdata]
  · intro hv
    simp [context_process, context_quit, hv]
  · intro hv
    simp [context_process, context_quit, hv]

/-- Witness for C1 at a concrete input: over the script `[{1,2}, {3}]`,
delivering the expected bytes `{1,2}` verifies and schedules the next
send via `context_process`. -/
theorem c1_witness :
    test_handler exCtx dataCond (some [1, 2]) =
      HandlerResult.keep (context_process { exCtx with pdu_offset := 1 }) :=
  (c1_read_verify_then_next_step exCtx [1, 2] (by decide)).1 (by decide)

/-- Claim C5: a dispatched `send_pdu` takes the next script entry, writes
its full bytes in a single write, asserts the write consumed exactly the
entry's byte length, returns `FALSE` (the idle task does not re-run), and
neither schedules any further task nor requests termination itself. -/
theorem c5_send_pdu_contract (c : Context) (wlen : Int) :
    (send_pdu c wlen).written = (pduAt c.pdu_list c.pdu_offset).data
    ∧ ((send_pdu c wlen).assertOk = true ↔
        wlen = Int.ofNat (pduAt c.pdu_list c.pdu_offset).size)
    ∧ (send_pdu c wlen).rerun = false
    ∧ (send_pdu c wlen).ctx.pending_sends = c.pending_sends
    ∧ (send_pdu c wlen).ctx.quit_requested = c.quit_requested
    ∧ (send_pdu c wlen).ctx.pdu_offset = c.pdu_offset + 1 := by
  simp [send_pdu]

/-- Witness for C5 at a concrete input: sending the first entry of the
script `[{1,2}, {3}]` with a write that returned 2. -/
theorem c5_witness :
    (send_pdu exCtx 2).written = [1, 2] ∧ (send_pdu exCtx 2).assertOk = true
    ∧ (send_pdu exCtx 2).rerun = false := by
  have h := c5_send_pdu_contract exCtx 2
  exact ⟨h.1, h.2.1.mpr (by decide), h.2.2.1⟩

/-- Claim C6: the capability-indication contract, regardless of the
`get_all` flag, returns success and populates the output with exactly the
media-transport record (no payload) followed by the media-codec record
for audio, codec type 0, payload `{0xff, 0xff, 2, 64}`; it never
partially populates the output. -/
theorem c6_getcap_fixed_records (get_all : Bool) :
    sep_getcap_ind get_all =
      (true,
       [{ category := AVDTP_MEDIA_TRANSPORT, payload := CapData.empty },
        { category := AVDTP_MEDIA_CODEC,
          payload := CapData.codec
            { media_type := AVDTP_MEDIA_TYPE_AUDIO, media_codec_type := 0x00,
              data := [0xff, 0xff, 2, 64] } }]) := rfl

/-- Claim C2: in every scenario run — client-role runs starting from
`create_context` (no pending send) as well as server-role runs starting
from `test_server_start` (the single initial send queued) — dispatches
consume script entries strictly in script order (the k-th dispatched
event consumes entry k), and the number of sends never exceeds the
number of verified reads plus the run's initial pending send count,
which is 0 for client roles and 1 for server roles: progression is
driven entirely by the read callback (each verified read schedules at
most one further send), never by a free-running timer. -/
theorem c2_strict_interleaving (entries : List TestPdu) (start c₂ : Context)
    (tr : List Event)
    (hstart : start = create_context entries ∨ start = test_server_start entries)
    (h : Trace start tr c₂) :
    (∀ k (hk : k < tr.length), (tr.get ⟨k, hk⟩).idx = k)
    ∧ countSends tr ≤ countRecvs tr + start.pending_sends
    ∧ start.pending_sends ≤ 1 := by
  have hoff : start.pdu_offset = 0 := by
    rcases hstart with h₁ | h₁ <;> rw [h₁] <;> rfl
  have hpend : start.pending_sends ≤ 1 := by
    rcases hstart with h₁ | h₁ <;> simp [h₁, create_context, test_server_start]
  refine ⟨?_, ?_, hpend⟩
  · intro k hk
    have h₂ := trace_get_idx _ _ _ h k hk
    rw [h₂, hoff]
    omega
  · have h₂ := trace_pending _ _ _ h
    omega

/-- Witness for C2 at a concrete client-role run: over the script
`[{1,2}]` with no initial send queued, one verified read of `{1,2}`
yields zero sends, within the bound of zero pending initial sends. -/
theorem c2_witness :
    countSends [Event.recv 0 [1, 2]] ≤
      countRecvs [Event.recv 0 [1, 2]] + (create_context [exPdu12]).pending_sends :=
  (c2_strict_interleaving [exPdu12] (create_context [exPdu12])
    (context_process { create_context [exPdu12] with pdu_offset := 1 })
    [Event.recv 0 [1, 2]] (Or.inl rfl)
    (Trace.cons _ _ _ _ _
      (Step.dispatchRecv (create_context [exPdu12])
        (context_process { create_context [exPdu12] with pdu_offset := 1 })
        [1, 2] rfl (by decide))
      (Trace.nil _))).2.1

/-- Counterexample to claim C3 as stated: delivering `{1,3}` against the
expected entry `{1,2}` fails verification, yet the cursor has advanced by
one — the increment happens before verification, not only on success. -/
theorem c3_counterexample :
    (test_handler exCtx dataCond (some [1, 3])).isAborted = true
    ∧ (test_handler exCtx dataCond (some [1, 3])).ctx.pdu_offset = exCtx.pdu_offset + 1
    ∧ exCtx.pdu_offset + 1 ≠ exCtx.pdu_offset := by decide

/-- Claim C3 as amended: the read handler advances the cursor by one
unconditionally on entry, before verification; on a length or content
mismatch the scenario aborts at that entry's position — the cursor rests
exactly one past the mismatched entry and no other state changes, so no
entry beyond the mismatch point is ever sent or verified. -/
theorem c3_mismatch_aborts_at_entry (c : Context) (pkt : List Nat)
    (hne : (pkt.take bufSize).length ≠ 0) :
    ((pkt.take bufSize).length ≠ (pduAt c.pdu_list c.pdu_offset).size →
      test_handler c dataCond (some pkt) =
        HandlerResult.aborted { c with pdu_offset := c.pdu_offset + 1 }
          AbortReason.lenMismatch)
    ∧ ((pkt.take bufSize).length = (pduAt c.pdu_list c.pdu_offset).size →
       pkt.take bufSize ≠ (pduAt c.pdu_list c.pdu_offset).data →
       test_handler c dataCond (some pkt) =
         HandlerResult.aborted { c with pdu_offset := c.pdu_offset + 1 }
           AbortReason.contentMismatch) := by
  constructor
  · intro hlen
    rw [data_handler_cases, if_neg hne, if_pos hlen]
  · intro hlen hdata
    rw [data_handler_cases, if_neg hne, if_neg (not_not_intro hlen), if_pos hdata]

/-- Witness for the amended C3 at a concrete input: over the script
`[{3}]`, delivering `{7}` (right length, wrong byte) aborts with a
content mismatch at entry 0, cursor resting at 1. -/
theorem c3_witness :
    test_handler exCtxB dataCond (some [7]) =
      HandlerResult.aborted { exCtxB with pdu_offset := 1 }
        AbortReason.contentMismatch :=
  (c3_mismatch_aborts_at_entry exCtxB [7] (by decide)).2 (by decide) (by decide)

/-- Counterexample to claim C4 as stated: over the script consisting
solely of the terminal sentinel, the server-role run performs one send
(the initial idle task writes the zero-length sentinel entry) and no
loop termination has been requested — it neither completes immediately
nor performs zero sends. -/
theorem c4_counterexample :
    Trace (test_server_start []) [Event.send 0 []]
      (dispatch_send (test_server_start []))
    ∧ countSends [Event.send 0 []] = 1
    ∧ (dispatch_send (test_server_start [])).quit_requested = false :=
  ⟨Trace.cons _ _ _ _ _ (Step.dispatchSend (test_server_start []) (by decide))
      (Trace.nil _),
   by decide, by decide⟩

/-- Claim C4 as amended: over the script consisting solely of the
terminal sentinel, any server-role run performs at most one send (the
initial idle task, which writes the zero-length sentinel entry), never
verifies a read (any inbound data fails verification against the
sentinel), and never requests loop termination — the harness logic only
requests quit from the read handler, which can never verify here. -/
theorem c4_empty_script_behaviour (tr : List Event) (c₂ : Context)
    (h : Trace (test_server_start []) tr c₂) :
    countSends tr ≤ 1 ∧ countRecvs tr = 0 ∧ c₂.quit_requested = false := by
  have hq := trace_empty_quit _ _ _ h rfl rfl
  have hp := trace_pending _ _ _ h
  have h₁ : (test_server_start ([] : List TestPdu)).pending_sends = 1 := rfl
  refine ⟨?_, hq.2, hq.1⟩
  omega

/-- Witness for the amended C4 at a concrete run: the initial sentinel
send over the empty script. -/
theorem c4_witness :
    countSends [Event.send 0 []] ≤ 1 ∧ countRecvs [Event.send 0 []] = 0
    ∧ (dispatch_send (test_server_start [])).quit_requested = false :=
  c4_empty_script_behaviour [Event.send 0 []] (dispatch_send (test_server_start []))
    (Trace.cons _ _ _ _ _ (Step.dispatchSend (test_server_start []) (by decide))
      (Trace.nil _))

/-- Counterexample to claim C7 as stated: the discovery-completion
callback invoked with no scenario context (as in the discover and
get-capabilities scenarios, which pass `NULL` user data) returns without
asserting even though an error indicator is present — the error check is
not performed before anything else, and the error does not abort. -/
theorem c7_counterexample :
    discover_cb none 0 (some 1) false 0 = CfmOutcome.returned := rfl

/-- Claim C7 as amended: the set-configuration and open confirmation
callbacks assert the absence of an error before doing anything else, so
an engine error there always aborts; the discovery completion asserts
the error's absence only when a scenario context was supplied — it first
returns silently on a null context. -/
theorem c7_error_assertions (e : Nat) (context : Option Context) (ret : Int)
    (fd : Int) (sepsLen : Nat) (rsepFound : Bool) (c : Context) :
    sep_setconf_cfm (some e) context ret = CfmOutcome.assertFailed
    ∧ sep_open_cfm (some e) fd ret = CfmOutcome.assertFailed
    ∧ discover_cb (some c) sepsLen (some e) rsepFound ret = CfmOutcome.assertFailed
    ∧ discover_cb none sepsLen (some e) rsepFound ret = CfmOutcome.returned :=
  ⟨rfl, rfl, rfl, rfl⟩

/-- Counterexample to claim C8 as stated: a hangup delivered over the
script `[{3}]` makes the handler return stop-watching without any fatal
assertion and without requesting termination — the unexpected teardown is
not treated as a scenario failure, the run merely stalls. -/
theorem c8_counterexample :
    (test_handler exCtxB hupCond none).isAborted = false
    ∧ (test_handler exCtxB hupCond none).ctx.quit_requested = false := by decide

/-- Claim C8 as amended: on a terminal condition (error, hangup or
invalid) the read handler returns stop-watching (it consumes one script
entry and the loop deregisters the watch); no assertion fires, and since
quit is only ever requested from the read handler, no later dispatch can
change the quit request — a teardown outside the expected terminal step
leaves the scenario unable to complete (it stalls rather than failing). -/
theorem c8_terminal_stops_then_stalls (c : Context) (cond : GioCond)
    (r : Option (List Nat)) (ht : GioCond.terminal cond = true) :
    test_handler c cond r =
      HandlerResult.stopWatch { c with pdu_offset := c.pdu_offset + 1 }
    ∧ ∀ tr c₂,
        Trace { c with pdu_offset := c.pdu_offset + 1, watch_active := false } tr c₂ →
        c₂.quit_requested = c.quit_requested := by
  refine ⟨terminal_stopWatch c cond r ht, ?_⟩
  intro tr c₂ htr
  have h := trace_watch_off _ _ _ htr rfl
  simpa using h.2

/-- Witness for the amended C8 at a concrete input: an error condition
over the script `[{1,2}, {3}]`. -/
theorem c8_witness :
    test_handler exCtx errCond none =
      HandlerResult.stopWatch { exCtx with pdu_offset := 1 }
    ∧ ({ exCtx with pdu_offset := 1, watch_active := false } : Context).quit_requested
        = exCtx.quit_requested := by
  have h := c8_terminal_stops_then_stalls exCtx errCond none (by decide)
  exact ⟨h.1, h.2 [] _ (Trace.nil _)⟩

/-- Claim C9: every invocation of the read handler increments the script
cursor by exactly one before the event condition is examined; in
particular a terminal-condition invocation, which reads and verifies
nothing, still consumes one script entry. -/
theorem c9_cursor_always_incremented (c : Context) (cond : GioCond)
    (r : Option (List Nat)) :
    (test_handler c cond r).ctx.pdu_offset = c.pdu_offset + 1
    ∧ (GioCond.terminal cond = true →
        test_handler c cond r =
          HandlerResult.stopWatch { c with pdu_offset := c.pdu_offset + 1 }) :=
  ⟨handler_ctx_offset c cond r, fun ht => terminal_stopWatch c cond r ht⟩

/-- Witness for C9 at a concrete input: an invalid-descriptor condition
over the script `[{1,2}, {3}]` consumes entry 0 without verification. -/
theorem c9_witness :
    test_handler exCtx nvalCond none =
      HandlerResult.stopWatch { exCtx with pdu_offset := 1 } :=
  (c9_cursor_always_incremented exCtx nvalCond none).2 (by decide)

/-- Claim C10: the inbound read goes into a fixed 512-byte buffer in a
single read call and the handler asserts a strictly positive byte count,
so a failed or empty read is fatal; and a script entry whose expected
size exceeds 512 bytes can never verify successfully, whatever the peer
sends, because the observed length is capped at 512. -/
theorem c10_read_buffer_bounds (c : Context) :
    test_handler c dataCond none =
      HandlerResult.aborted { c with pdu_offset := c.pdu_offset + 1 }
        AbortReason.readFailed
    ∧ test_handler c dataCond (some []) =
      HandlerResult.aborted { c with pdu_offset := c.pdu_offset + 1 }
        AbortReason.readFailed
    ∧ (bufSize < (pduAt c.pdu_list c.pdu_offset).size →
        ∀ pkt c₂, test_handler c dataCond (some pkt) ≠ HandlerResult.keep c₂) := by
  refine ⟨?_, ?_, ?_⟩
  · simp [test_handler, dataCond, GioCond.terminal]
  · rw [data_handler_cases]; simp
  · intro hbig pkt c₂ hk
    have h := handler_keep_inv c c₂ pkt hk
    have hlen : (pkt.take bufSize).length = (pduAt c.pdu_list c.pdu_offset).size := by
      rw [h.2.2]; rfl
    have hle : (pkt.take bufSize).length ≤ bufSize := by
      rw [List.length_take]
      exact Nat.min_le_left _ _
    omega

set_option maxRecDepth 10000 in
/-- Witness for C10 at a concrete input: an entry of 600 bytes can never
be verified even when the peer sends exactly those 600 bytes. -/
theorem c10_witness :
    test_handler exCtxBig dataCond (some (List.replicate 600 7)) ≠
      HandlerResult.keep exCtxBig :=
  (c10_read_buffer_bounds exCtxBig).2.2 (by decide) (List.replicate 600 7) exCtxBig
